import Mathlib

/-!
Shallow embedding of the authentication/authorization gate of the
atlas-backend repository (src/db.js: `authenticateToken`, `requireRole`,
`optionalAuth`; src/unnamed/part_000: the `DELETE /api/keys/:id` route;
the Credential Store helpers `getUserById`, `getApiKeyByHash`,
`updateApiKeyLastUsed`, `deleteApiKey` of `db_helpers`).

External collaborators are modelled as parameters or flags:
- `jwt.verify(token, JWT_SECRET)` is a parameter `verify : String → Option Nat`
  returning the decoded `userId` claim on success and `none` on a throw
  (malformed / forged signature / expired token);
- `crypto.createHash('sha256')...digest('hex')` is a parameter
  `sha256 : String → String`;
- the Supabase store is a `Store` value: row lists plus Boolean flags that
  make a given call throw with an infrastructure error (an error whose
  code is not the PGRST116 "no rows found" sentinel).
Time-valued columns (`created_at` of api_keys, `last_used_at`) take no part
in any decision and are not modelled.
-/

namespace Atlas

/-- A row of the `profiles` table as selected by `db_helpers.getUserById`
(`select('id, username, email, role, created_at')`). -/
structure Profile where
  id : Nat
  username : String
  email : String
  role : String
  created_at : String
deriving Repr, DecidableEq

/-- A row of the `api_keys` table as returned by `db_helpers.getApiKeyByHash`:
the row's own columns joined with the owner's `profiles(username, email, role)`
fields, which the helper copies to top level. -/
structure ApiKeyRow where
  id : Nat
  user_id : Nat
  name : String
  key_hash : String
  username : String
  email : String
  role : String
deriving Repr, DecidableEq

/-- The Credential Store (Supabase). Row lists model the table contents; each
`...Err` flag, when true, makes the corresponding call fail with an
infrastructure error, i.e. an error whose `code` is NOT the `PGRST116`
"no rows found" sentinel (that sentinel is instead modelled by the row
simply being absent from the list). -/
structure Store where
  profiles : List Profile
  api_keys : List ApiKeyRow
  profilesSelectErr : Bool
  apiKeysSelectErr : Bool
  apiKeysUpdateErr : Bool
  apiKeysDeleteErr : Bool
deriving Repr, DecidableEq

/-- `db_helpers.getUserById`: `select(...).eq('id', id).single()`;
`if (error && error.code !== 'PGRST116') throw error; return data;` —
an infrastructure error propagates as `.error`, "no rows" yields `.ok none`. -/
def getUserById (s : Store) (id : Nat) : Except Unit (Option Profile) :=
  if s.profilesSelectErr then .error ()
  else .ok (s.profiles.find? (fun p => p.id == id))

/-- `db_helpers.getApiKeyByHash`: `select('*, profiles(...)').eq('key_hash', keyHash).single()`;
infrastructure error throws, "no rows" returns null, a found row is returned
with the joined profile fields copied to top level (already flattened in
`ApiKeyRow`). -/
def getApiKeyByHash (s : Store) (keyHash : String) : Except Unit (Option ApiKeyRow) :=
  if s.apiKeysSelectErr then .error ()
  else .ok (s.api_keys.find? (fun k => k.key_hash == keyHash))

/-- `db_helpers.updateApiKeyLastUsed`: `update({last_used_at: now}).eq('id', id)`;
`if (error) throw error`. Only the throw/no-throw outcome is relevant. -/
def updateApiKeyLastUsed (s : Store) (_id : Nat) : Except Unit Unit :=
  if s.apiKeysUpdateErr then .error () else .ok ()

/-- `db_helpers.deleteApiKey`: `delete({count:'exact'}).eq('id', id).eq('user_id', userId)`;
`if (error) throw error; return {changes: count}`. Returns the number of rows
removed and the store after removal. -/
def deleteApiKey (s : Store) (id userId : Nat) : Except Unit (Nat × Store) :=
  if s.apiKeysDeleteErr then .error ()
  else
    let keep := s.api_keys.filter (fun k => !(k.id == id && k.user_id == userId))
    .ok (s.api_keys.length - keep.length, { s with api_keys := keep })

/-- The principal attached to `req.user`. On the bearer path it is the row
`getUserById` returned (which includes `created_at`); on the API-key path the
middleware builds `{id, username, email, role}` with no `created_at` field,
modelled as `none`. -/
structure Principal where
  id : Nat
  username : String
  email : String
  role : String
  created_at : Option String
deriving Repr, DecidableEq

/-- The request fields the middleware reads and writes: the two headers
(`none` = header absent), plus a possibly pre-attached `req.user` /
`req.authType`. -/
structure Request where
  authorization : Option String
  x_api_key : Option String
  user : Option Principal
  authType : Option String
deriving Repr, DecidableEq

/-- The observable outcome of a middleware invocation: either `next()` was
called with the given `req.user` / `req.authType` in effect, or an error
response `res.status(status).json({error: body})` was sent. -/
inductive MwResult where
  | next (user : Option Principal) (authType : Option String)
  | reject (status : Nat) (error : String)
deriving Repr, DecidableEq

/-- Status code of a rejection, `none` for a pass-through. -/
def MwResult.statusOf : MwResult → Option Nat
  | .next _ _ => none
  | .reject s _ => some s

/-- A Credential Store call performed during a middleware run (the trace lets
us state which lookups a code path does and does not perform). -/
inductive StoreOp where
  | userById (id : Nat)
  | keyByHash (keyHash : String)
  | touchKey (id : Nat)
deriving Repr, DecidableEq

/-- JavaScript `str.split(sep)` for a single-character separator, on the
character list: splits at every occurrence, keeping empty segments
(`"a  b".split(' ') = ["a","","b"]`, `"".split(' ') = [""]`). -/
def splitChar (sep : Char) : List Char → List (List Char)
  | [] => [[]]
  | c :: cs =>
    let rest := splitChar sep cs
    if c = sep then [] :: rest
    else
      match rest with
      | r :: rs => (c :: r) :: rs
      | [] => [[c]]

/-- JavaScript `s.split(sep)` on Lean strings. -/
def jsSplit (s : String) (sep : Char) : List String :=
  (splitChar sep s.data).map String.mk

/-- `authHeader && authHeader.split(' ')[1]` — the candidate bearer token:
the element at index 1 of the split, `none` when the header is absent or the
split has no second element. -/
def bearerToken (authHeader : Option String) : Option String :=
  match authHeader with
  | none => none
  | some h => (jsSplit h ' ').get? 1

/-- JavaScript truthiness of an optional header/token string:
absent and `""` are falsy. -/
def truthy : Option String → Bool
  | none => false
  | some s => s ≠ ""

/-- The bearer-token block of `authenticateToken` (`if (token) { ... }`):
`jwt.verify` then `getUserById(decoded.userId)`; any throw inside the block —
a verify failure or a store infrastructure error — is caught by the single
`catch` and answered with 403 `Invalid or expired token`; a verified token
whose user row is absent is answered 401 `Invalid token: user not found`;
otherwise `req.user`/`req.authType = 'jwt'` are set and `next()` runs. -/
def tryBearer (verify : String → Option Nat) (s : Store) (t : String) :
    MwResult × List StoreOp :=
  match verify t with
  | none => (.reject 403 "Invalid or expired token", [])
  | some uid =>
    match getUserById s uid with
    | .error _ => (.reject 403 "Invalid or expired token", [.userById uid])
    | .ok none => (.reject 401 "Invalid token: user not found", [.userById uid])
    | .ok (some p) =>
      (.next (some ⟨p.id, p.username, p.email, p.role, some p.created_at⟩) (some "jwt"),
       [.userById uid])

/-- The API-key block of `authenticateToken` (`if (apiKey) { ... }`) together
with the final `return res.status(401).json({error: 'Authentication required'})`
reached when the header is falsy: hash the key, look it up; a store
infrastructure error anywhere in the block — the lookup or the
`updateApiKeyLastUsed` call, both awaited inside the `try` — is caught and
answered 500; an unknown hash is answered 401 `Invalid API key`; otherwise the
principal is built from the joined row and `next()` runs with
`req.authType = 'apikey'`. -/
def tryApiKey (sha256 : String → String) (s : Store) (req : Request) :
    MwResult × List StoreOp :=
  match req.x_api_key with
  | none => (.reject 401 "Authentication required", [])
  | some k =>
    if k = "" then (.reject 401 "Authentication required", [])
    else
      let keyHash := sha256 k
      match getApiKeyByHash s keyHash with
      | .error _ =>
        (.reject 500 "Internal server error during authentication", [.keyByHash keyHash])
      | .ok none => (.reject 401 "Invalid API key", [.keyByHash keyHash])
      | .ok (some rec) =>
        match updateApiKeyLastUsed s rec.id with
        | .error _ =>
          (.reject 500 "Internal server error during authentication",
           [.keyByHash keyHash, .touchKey rec.id])
        | .ok _ =>
          (.next (some ⟨rec.user_id, rec.username, rec.email, rec.role, none⟩) (some "apikey"),
           [.keyByHash keyHash, .touchKey rec.id])

/-- `authenticateToken` (src/db.js lines 246–300): short-circuit when
`req.user` is already attached; else try the bearer token
(`authHeader.split(' ')[1]`, when truthy); else try the API key header; else
401 `Authentication required`. Returns the observable outcome and the trace
of Credential Store calls performed. -/
def authenticateToken (verify : String → Option Nat) (sha256 : String → String)
    (s : Store) (req : Request) : MwResult × List StoreOp :=
  if req.user.isSome then (.next req.user req.authType, [])
  else
    match bearerToken req.authorization with
    | some t => if t = "" then tryApiKey sha256 s req else tryBearer verify s t
    | none => tryApiKey sha256 s req

/-- `requireRole(...allowedRoles)` (src/db.js lines 306–322): 401
`Authentication required` when no principal is attached, 403
`Insufficient permissions` when the principal's role is not in the allowed
list, otherwise `next()`. -/
def requireRole (allowedRoles : List String) (req : Request) : MwResult :=
  match req.user with
  | none => .reject 401 "Authentication required"
  | some u =>
    if allowedRoles.contains u.role then .next req.user req.authType
    else .reject 403 "Insufficient permissions"

/-- `optionalAuth` (src/db.js lines 327–346): bearer-token resolution only;
a falsy token means an immediate `next()`; a throw from `jwt.verify` or from
`getUserById` is swallowed by the empty `catch`; `req.user` is set only when a
user row is found; `next()` is always reached. `req.authType` is never
written. -/
def optionalAuth (verify : String → Option Nat) (s : Store) (req : Request) :
    MwResult × List StoreOp :=
  match bearerToken req.authorization with
  | none => (.next req.user req.authType, [])
  | some t =>
    if t = "" then (.next req.user req.authType, [])
    else
      match verify t with
      | none => (.next req.user req.authType, [])
      | some uid =>
        match getUserById s uid with
        | .error _ => (.next req.user req.authType, [.userById uid])
        | .ok none => (.next req.user req.authType, [.userById uid])
        | .ok (some p) =>
          (.next (some ⟨p.id, p.username, p.email, p.role, some p.created_at⟩) req.authType,
           [.userById uid])

/-- An HTTP response of the key-management router: status and the `error` /
`message` string of the JSON body. -/
structure RouteResponse where
  status : Nat
  body : String
deriving Repr, DecidableEq

/-- The `DELETE /api/keys/:id` handler (src/unnamed/part_000 lines 56–71),
after `authenticateToken` has attached `principal`: calls
`db_helpers.deleteApiKey(id, req.user.id)`; a throw is answered 500; zero
deleted rows is answered 404 `API key not found`; otherwise 200
`API key revoked successfully`. Returns the response and the store after the
call. -/
def deleteKeyRoute (s : Store) (principal : Principal) (id : Nat) :
    RouteResponse × Store :=
  match deleteApiKey s id principal.id with
  | .error _ => (⟨500, "Failed to revoke API key"⟩, s)
  | .ok (0, s2) => (⟨404, "API key not found"⟩, s2)
  | .ok (_ + 1, s2) => (⟨200, "API key revoked successfully"⟩, s2)

/-! ### Concrete fixtures used by counterexamples and witnesses -/

/-- A token verifier for concrete runs: exactly the token `"goodtok"`
verifies, with `userId` claim 7; all other strings throw. -/
def verify0 : String → Option Nat := fun t => if t = "goodtok" then some 7 else none

/-- A stand-in digest function for concrete runs (injective on the inputs
used, which is all sha256 provides here). -/
def sha0 : String → String := fun k => "h:" ++ k

/-- A profiles row. -/
def user7 : Profile := ⟨7, "alice", "alice@example.com", "admin", "2026-01-01"⟩

/-- An api_keys row owned by `user7`, whose stored hash matches the raw key
`"rawkey"` under `sha0`. -/
def key9 : ApiKeyRow := ⟨9, 7, "ci key", "h:rawkey", "alice", "alice@example.com", "admin"⟩

/-- A healthy store holding `user7` and `key9`. -/
def store0 : Store := ⟨[user7], [key9], false, false, false, false⟩

/-- `store0` with the `updateApiKeyLastUsed` write failing. -/
def storeTouchErr : Store := ⟨[user7], [key9], false, false, true, false⟩

/-- `store0` with the profiles lookup failing with an infrastructure error. -/
def storeUserErr : Store := ⟨[user7], [key9], true, false, false, false⟩

/-- `store0` with the api_keys lookup failing with an infrastructure error. -/
def storeKeyErr : Store := ⟨[user7], [key9], false, true, false, false⟩

/-- `store0` with the profiles table empty: token 7 verifies but its user is
gone. -/
def storeNoUser : Store := ⟨[], [key9], false, false, false, false⟩

/-- Request with a forged/expired bearer token and no API key. -/
def reqForged : Request := ⟨some "Bearer forged", none, none, none⟩

/-- Request with the valid bearer token and no API key. -/
def reqGood : Request := ⟨some "Bearer goodtok", none, none, none⟩

/-- Request with both the valid bearer token and the valid API key. -/
def reqBoth : Request := ⟨some "Bearer goodtok", some "rawkey", none, none⟩

/-- Request with only the valid API key. -/
def reqKey : Request := ⟨none, some "rawkey", none, none⟩

/-! ### Structural lemmas about the gate -/

/-- When no principal is pre-attached and the split of the Authorization
header yields a truthy token, `authenticateToken` is exactly its bearer
block on that token. -/
theorem authenticateToken_eq_tryBearer (verify : String → Option Nat)
    (sha256 : String → String) (s : Store) (req : Request) (t : String)
    (hu : req.user = none) (ht : bearerToken req.authorization = some t)
    (hne : t ≠ "") :
    authenticateToken verify sha256 s req = tryBearer verify s t := by
  simp [authenticateToken, hu, ht, hne]

/-- When no principal is pre-attached and no truthy bearer token is
extracted, `authenticateToken` is exactly its API-key block. -/
theorem authenticateToken_eq_tryApiKey (verify : String → Option Nat)
    (sha256 : String → String) (s : Store) (req : Request)
    (hu : req.user = none) (ht : truthy (bearerToken req.authorization) = false) :
    authenticateToken verify sha256 s req = tryApiKey sha256 s req := by
  cases h : bearerToken req.authorization with
  | none => simp [authenticateToken, hu, h]
  | some t =>
    have he : t = "" := by
      by_contra hne
      simp [truthy, h, hne] at ht
    simp [authenticateToken, hu, h, he]

/-! ### C1 — status contract of the gate -/

/-- C1 counterexample: a request whose bearer token fails verification
(malformed/forged/expired) is rejected with status 403, not the 401 the
claim asserts for every invalid credential. -/
theorem c1_counterexample_forged_token_gets_403 :
    (authenticateToken verify0 sha0 store0 reqForged).fst
        = MwResult.reject 403 "Invalid or expired token"
      ∧ (authenticateToken verify0 sha0 store0 reqForged).fst.statusOf ≠ some 401 := by
  constructor
  · decide
  · decide

/-- C1 (amended): rejections for a missing credential, for a verified token
whose user row is gone, and for an unknown API key carry status 401; a
malformed/forged/expired bearer token is rejected 403 — the same status used
for an authenticated principal with an insufficient role — and a Credential
Store infrastructure failure on the bearer path is also reported 403; status
500 is produced only on the API-key path, for a store failure during the
key lookup. -/
theorem c1_amended_status_contract (verify : String → Option Nat)
    (sha256 : String → String) (s : Store) (req : Request)
    (hu : req.user = none) :
    (truthy (bearerToken req.authorization) = false → truthy req.x_api_key = false →
      (authenticateToken verify sha256 s req).fst
        = MwResult.reject 401 "Authentication required")
    ∧ (∀ t, bearerToken req.authorization = some t → t ≠ "" → verify t = none →
      (authenticateToken verify sha256 s req).fst
        = MwResult.reject 403 "Invalid or expired token")
    ∧ (∀ t uid, bearerToken req.authorization = some t → t ≠ "" → verify t = some uid →
      getUserById s uid = Except.ok none →
      (authenticateToken verify sha256 s req).fst
        = MwResult.reject 401 "Invalid token: user not found")
    ∧ (∀ t uid, bearerToken req.authorization = some t → t ≠ "" → verify t = some uid →
      getUserById s uid = Except.error () →
      (authenticateToken verify sha256 s req).fst
        = MwResult.reject 403 "Invalid or expired token")
    ∧ (∀ k, truthy (bearerToken req.authorization) = false → req.x_api_key = some k →
      k ≠ "" → getApiKeyByHash s (sha256 k) = Except.ok none →
      (authenticateToken verify sha256 s req).fst
        = MwResult.reject 401 "Invalid API key")
    ∧ (∀ k, truthy (bearerToken req.authorization) = false → req.x_api_key = some k →
      k ≠ "" → getApiKeyByHash s (sha256 k) = Except.error () →
      (authenticateToken verify sha256 s req).fst
        = MwResult.reject 500 "Internal server error during authentication")
    ∧ (∀ (roles : List String) (req2 : Request) (u : Principal), req2.user = some u →
      roles.contains u.role = false →
      requireRole roles req2 = MwResult.reject 403 "Insufficient permissions") := by
  refine ⟨?_, ?_, ?_, ?_, ?_, ?_, ?_⟩
  · intro hb hk
    rw [authenticateToken_eq_tryApiKey verify sha256 s req hu hb]
    cases h : req.x_api_key with
    | none => simp [tryApiKey, h]
    | some k =>
      have he : k = "" := by
        by_contra hne
        simp [truthy, h, hne] at hk
      simp [tryApiKey, h, he]
  · intro t ht hne hv
    rw [authenticateToken_eq_tryBearer verify sha256 s req t hu ht hne]
    simp [tryBearer, hv]
  · intro t uid ht hne hv hg
    rw [authenticateToken_eq_tryBearer verify sha256 s req t hu ht hne]
    simp [tryBearer, hv, hg]
  · intro t uid ht hne hv hg
    rw [authenticateToken_eq_tryBearer verify sha256 s req t hu ht hne]
    simp [tryBearer, hv, hg]
  · intro k hb hk hne hg
    rw [authenticateToken_eq_tryApiKey verify sha256 s req hu hb]
    simp [tryApiKey, hk, hne, hg]
  · intro k hb hk hne hg
    rw [authenticateToken_eq_tryApiKey verify sha256 s req hu hb]
    simp [tryApiKey, hk, hne, hg]
  · intro roles req2 u hu2 hr
    simp [requireRole, hu2, hr]
    simpa using hr

/-- C1 witness: the amended contract evaluated on concrete runs — missing
credential 401, forged token 403, stale-token user 401, unknown API key 401,
key-store outage 500, insufficient role 403. -/
theorem c1_amended_status_contract_witness :
    (authenticateToken verify0 sha0 store0 ⟨none, none, none, none⟩).fst
        = MwResult.reject 401 "Authentication required"
      ∧ (authenticateToken verify0 sha0 store0 reqForged).fst
        = MwResult.reject 403 "Invalid or expired token"
      ∧ (authenticateToken verify0 sha0 storeNoUser reqGood).fst
        = MwResult.reject 401 "Invalid token: user not found"
      ∧ (authenticateToken verify0 sha0 store0 ⟨none, some "wrongkey", none, none⟩).fst
        = MwResult.reject 401 "Invalid API key"
      ∧ (authenticateToken verify0 sha0 storeKeyErr reqKey).fst
        = MwResult.reject 500 "Internal server error during authentication"
      ∧ requireRole ["admin"] ⟨none, none, some ⟨3, "bob", "b@example.com", "viewer", none⟩, none⟩
        = MwResult.reject 403 "Insufficient permissions" :=
  ⟨(c1_amended_status_contract verify0 sha0 store0 ⟨none, none, none, none⟩ rfl).1
      (by decide) (by decide),
   (c1_amended_status_contract verify0 sha0 store0 reqForged rfl).2.1
      "forged" (by decide) (by decide) (by decide),
   (c1_amended_status_contract verify0 sha0 storeNoUser reqGood rfl).2.2.1
      "goodtok" 7 (by decide) (by decide) (by decide) rfl,
   (c1_amended_status_contract verify0 sha0 store0 ⟨none, some "wrongkey", none, none⟩ rfl).2.2.2.2.1
      "wrongkey" (by decide) (by decide) (by decide) rfl,
   (c1_amended_status_contract verify0 sha0 storeKeyErr reqKey rfl).2.2.2.2.2.1
      "rawkey" (by decide) (by decide) (by decide) rfl,
   (c1_amended_status_contract verify0 sha0 store0 ⟨none, none, none, none⟩ rfl).2.2.2.2.2.2
      ["admin"] ⟨none, none, some ⟨3, "bob", "b@example.com", "viewer", none⟩, none⟩
      ⟨3, "bob", "b@example.com", "viewer", none⟩ rfl (by decide)⟩

/-! ### C2 — behaviour when the lastUsedAt update fails -/

/-- C2 counterexample: with a healthy key lookup but a failing
`updateApiKeyLastUsed` write, the API-key request is rejected with 500 —
it does not proceed as authenticated, contradicting the claim that the
update is best-effort. -/
theorem c2_counterexample_touch_failure_rejects :
    (authenticateToken verify0 sha0 storeTouchErr reqKey).fst
        = MwResult.reject 500 "Internal server error during authentication"
      ∧ ∀ u a, (authenticateToken verify0 sha0 storeTouchErr reqKey).fst
        ≠ MwResult.next u a := by
  refine ⟨by decide, ?_⟩
  intro u a h
  rw [show (authenticateToken verify0 sha0 storeTouchErr reqKey).fst
        = MwResult.reject 500 "Internal server error during authentication" from by decide] at h
  exact MwResult.noConfusion h

/-- C2 (amended): the `updateApiKeyLastUsed` call is awaited inside the
API-key path's `try` block, so its failure is caught by the same `catch` as a
store outage and the request is rejected with status 500 even though the key
record was found and the principal had been constructed; the update is not
best-effort in the code. -/
theorem c2_amended_touch_failure_gives_500 (verify : String → Option Nat)
    (sha256 : String → String) (s : Store) (req : Request) (k : String)
    (rec : ApiKeyRow) (hu : req.user = none)
    (hb : truthy (bearerToken req.authorization) = false)
    (hk : req.x_api_key = some k) (hne : k ≠ "")
    (hfound : getApiKeyByHash s (sha256 k) = Except.ok (some rec))
    (htouch : s.apiKeysUpdateErr = true) :
    (authenticateToken verify sha256 s req).fst
      = MwResult.reject 500 "Internal server error during authentication" := by
  rw [authenticateToken_eq_tryApiKey verify sha256 s req hu hb]
  simp [tryApiKey, hk, hne, hfound, updateApiKeyLastUsed, htouch]

/-- C2 witness: the amended statement on the concrete failing-touch store. -/
theorem c2_amended_touch_failure_gives_500_witness :
    (authenticateToken verify0 sha0 storeTouchErr reqKey).fst
      = MwResult.reject 500 "Internal server error during authentication" :=
  c2_amended_touch_failure_gives_500 verify0 sha0 storeTouchErr reqKey "rawkey" key9
    rfl (by decide) rfl (by decide) rfl rfl

/-! ### C3 — the two bearer-path failures are client-distinguishable -/

/-- C3 counterexample: a signature/expiry failure is answered
403 `Invalid or expired token` while a verified token whose user row is gone
is answered 401 `Invalid token: user not found` — different status and
different body, contradicting the claim that the two responses coincide. -/
theorem c3_counterexample_distinct_responses :
    (authenticateToken verify0 sha0 store0 reqForged).fst
        = MwResult.reject 403 "Invalid or expired token"
      ∧ (authenticateToken verify0 sha0 storeNoUser reqGood).fst
        = MwResult.reject 401 "Invalid token: user not found"
      ∧ (authenticateToken verify0 sha0 store0 reqForged).fst
        ≠ (authenticateToken verify0 sha0 storeNoUser reqGood).fst := by
  refine ⟨by decide, by decide, ?_⟩
  decide

/-- C3 (amended): the two bearer-path failures produce different
client-visible responses: a token that fails verification yields
403 `Invalid or expired token`, while a token that verifies but whose user id
has no row in the Credential Store yields 401 `Invalid token: user not found`. -/
theorem c3_amended_responses_differ (verify : String → Option Nat)
    (sha256 : String → String) (s : Store) (req : Request) (t : String)
    (hu : req.user = none) (ht : bearerToken req.authorization = some t)
    (hne : t ≠ "") :
    (verify t = none →
      (authenticateToken verify sha256 s req).fst
        = MwResult.reject 403 "Invalid or expired token")
    ∧ (∀ uid, verify t = some uid → getUserById s uid = Except.ok none →
      (authenticateToken verify sha256 s req).fst
        = MwResult.reject 401 "Invalid token: user not found")
    ∧ (MwResult.reject 403 "Invalid or expired token"
        ≠ MwResult.reject 401 "Invalid token: user not found") := by
  rw [authenticateToken_eq_tryBearer verify sha256 s req t hu ht hne]
  refine ⟨?_, ?_, by decide⟩
  · intro hv
    simp [tryBearer, hv]
  · intro uid hv hg
    simp [tryBearer, hv, hg]

/-- C3 witness: the amended statement on concrete runs of both failure
paths. -/
theorem c3_amended_responses_differ_witness :
    (authenticateToken verify0 sha0 store0 reqForged).fst
        = MwResult.reject 403 "Invalid or expired token"
      ∧ (authenticateToken verify0 sha0 storeNoUser reqGood).fst
        = MwResult.reject 401 "Invalid token: user not found" :=
  ⟨(c3_amended_responses_differ verify0 sha0 store0 reqForged "forged"
      rfl (by decide) (by decide)).1 (by decide),
   (c3_amended_responses_differ verify0 sha0 storeNoUser reqGood "goodtok"
      rfl (by decide) (by decide)).2.1 7 (by decide) rfl⟩

/-! ### C4 — status class of store infrastructure failures -/

/-- C4 counterexample: an infrastructure failure of the Credential Store
lookup on the bearer path (`getUserById` throwing a non-PGRST116 error) is
answered 403, not the server-error 500 the claim asserts for both paths. -/
theorem c4_counterexample_bearer_store_outage_gets_403 :
    (authenticateToken verify0 sha0 storeUserErr reqGood).fst
        = MwResult.reject 403 "Invalid or expired token"
      ∧ (authenticateToken verify0 sha0 storeUserErr reqGood).fst.statusOf ≠ some 500 := by
  exact ⟨by decide, by decide⟩

/-- C4 (amended): on the API-key path a store infrastructure failure
(`getApiKeyByHash` throwing) is rejected with 500, distinct from the 401
client-error class; but on the bearer path a store infrastructure failure
(`getUserById` throwing) is caught by the token `catch` and rejected with
403 `Invalid or expired token`, indistinguishable from a bad credential. -/
theorem c4_amended_outage_statuses (verify : String → Option Nat)
    (sha256 : String → String) (s : Store) (req : Request)
    (hu : req.user = none) :
    (∀ t uid, bearerToken req.authorization = some t → t ≠ "" →
      verify t = some uid → getUserById s uid = Except.error () →
      (authenticateToken verify sha256 s req).fst
        = MwResult.reject 403 "Invalid or expired token")
    ∧ (∀ k, truthy (bearerToken req.authorization) = false → req.x_api_key = some k →
      k ≠ "" → getApiKeyByHash s (sha256 k) = Except.error () →
      (authenticateToken verify sha256 s req).fst
        = MwResult.reject 500 "Internal server error during authentication") := by
  constructor
  · intro t uid ht hne hv hg
    rw [authenticateToken_eq_tryBearer verify sha256 s req t hu ht hne]
    simp [tryBearer, hv, hg]
  · intro k hb hk hne hg
    rw [authenticateToken_eq_tryApiKey verify sha256 s req hu hb]
    simp [tryApiKey, hk, hne, hg]

/-- C4 witness: the amended statement on concrete outages of each path. -/
theorem c4_amended_outage_statuses_witness :
    (authenticateToken verify0 sha0 storeUserErr reqGood).fst
        = MwResult.reject 403 "Invalid or expired token"
      ∧ (authenticateToken verify0 sha0 storeKeyErr reqKey).fst
        = MwResult.reject 500 "Internal server error during authentication" :=
  ⟨(c4_amended_outage_statuses verify0 sha0 storeUserErr reqGood rfl).1
      "goodtok" 7 (by decide) (by decide) (by decide) rfl,
   (c4_amended_outage_statuses verify0 sha0 storeKeyErr reqKey rfl).2
      "rawkey" (by decide) rfl (by decide) rfl⟩

/-! ### C5 — bearer-token precedence over the API key -/

/-- C5: when a truthy bearer token is present, the gate performs no API-key
resolution — its Credential Store trace holds only `userById` lookups, and
the outcome is invariant under any change of the `X-API-Key` header — and
when the token verifies and its `userId` claim is found in the store, the
attached principal is that re-fetched user, with authType `jwt`. -/
theorem c5_token_precedence (verify : String → Option Nat)
    (sha256 : String → String) (s : Store) (req : Request) (t : String)
    (hu : req.user = none) (ht : bearerToken req.authorization = some t)
    (hne : t ≠ "") :
    (∀ op ∈ (authenticateToken verify sha256 s req).snd, ∃ uid, op = StoreOp.userById uid)
    ∧ (∀ k, authenticateToken verify sha256 s { req with x_api_key := k }
        = authenticateToken verify sha256 s req)
    ∧ (∀ uid p, verify t = some uid → getUserById s uid = Except.ok (some p) →
      (authenticateToken verify sha256 s req).fst
        = MwResult.next (some ⟨p.id, p.username, p.email, p.role, some p.created_at⟩)
            (some "jwt")) := by
  have hmain : authenticateToken verify sha256 s req = tryBearer verify s t :=
    authenticateToken_eq_tryBearer verify sha256 s req t hu ht hne
  refine ⟨?_, ?_, ?_⟩
  · rw [hmain]
    cases hv : verify t with
    | none => simp [tryBearer, hv]
    | some uid =>
      cases hg : getUserById s uid with
      | error e =>
        simp [tryBearer, hv, hg]
      | ok d =>
        cases d with
        | none => simp [tryBearer, hv, hg]
        | some p => simp [tryBearer, hv, hg]
  · intro k
    have hu2 : ({ req with x_api_key := k } : Request).user = none := hu
    have ht2 : bearerToken ({ req with x_api_key := k } : Request).authorization = some t := ht
    rw [authenticateToken_eq_tryBearer verify sha256 s _ t hu2 ht2 hne, hmain]
  · intro uid p hv hg
    rw [hmain]
    simp [tryBearer, hv, hg]

/-- C5 witness: with both a valid bearer token (user 7) and a valid API-key
header present, the trace is a single user lookup and the resolved principal
is the token's user, authType `jwt`. -/
theorem c5_token_precedence_witness :
    (∀ op ∈ (authenticateToken verify0 sha0 store0 reqBoth).snd,
        ∃ uid, op = StoreOp.userById uid)
      ∧ (authenticateToken verify0 sha0 store0 reqBoth).fst
        = MwResult.next
            (some ⟨user7.id, user7.username, user7.email, user7.role, some user7.created_at⟩)
            (some "jwt") :=
  ⟨(c5_token_precedence verify0 sha0 store0 reqBoth "goodtok"
      rfl (by decide) (by decide)).1,
   (c5_token_precedence verify0 sha0 store0 reqBoth "goodtok"
      rfl (by decide) (by decide)).2.2 7 user7 (by decide) rfl⟩

/-! ### C6 — optionalAuth never rejects and ignores the API key -/

/-- C6: `optionalAuth` is invariant under the `X-API-Key` header, its
Credential Store trace holds only `userById` lookups (bearer resolution
only), it always passes the request on (never a rejection), and on every
failure — falsy token, verification failure, user row missing, store
infrastructure error — it proceeds with no principal attached. -/
theorem c6_optionalAuth_never_rejects (verify : String → Option Nat)
    (s : Store) (req : Request) :
    (∀ k, optionalAuth verify s { req with x_api_key := k } = optionalAuth verify s req)
    ∧ (∀ op ∈ (optionalAuth verify s req).snd, ∃ uid, op = StoreOp.userById uid)
    ∧ (∃ u, (optionalAuth verify s req).fst = MwResult.next u req.authType)
    ∧ (req.user = none →
        (truthy (bearerToken req.authorization) = false →
          (optionalAuth verify s req).fst = MwResult.next none req.authType)
        ∧ (∀ t, bearerToken req.authorization = some t → t ≠ "" → verify t = none →
          (optionalAuth verify s req).fst = MwResult.next none req.authType)
        ∧ (∀ t uid, bearerToken req.authorization = some t → verify t = some uid →
            getUserById s uid = Except.ok none →
          (optionalAuth verify s req).fst = MwResult.next none req.authType)
        ∧ (∀ t uid, bearerToken req.authorization = some t → verify t = some uid →
            getUserById s uid = Except.error () →
          (optionalAuth verify s req).fst = MwResult.next none req.authType)) := by
  refine ⟨?_, ?_, ?_, ?_⟩
  · intro k
    cases hb : bearerToken req.authorization with
    | none => simp [optionalAuth, hb]
    | some t =>
      by_cases he : t = ""
      · simp [optionalAuth, hb, he]
      · cases hv : verify t with
        | none => simp [optionalAuth, hb, he, hv]
        | some uid => simp [optionalAuth, hb, he, hv]
  · cases hb : bearerToken req.authorization with
    | none => simp [optionalAuth, hb]
    | some t =>
      by_cases he : t = ""
      · simp [optionalAuth, hb, he]
      · cases hv : verify t with
        | none => simp [optionalAuth, hb, he, hv]
        | some uid =>
          cases hg : getUserById s uid with
          | error e => simp [optionalAuth, hb, he, hv, hg]
          | ok d =>
            cases d with
            | none => simp [optionalAuth, hb, he, hv, hg]
            | some p => simp [optionalAuth, hb, he, hv, hg]
  · cases hb : bearerToken req.authorization with
    | none => exact ⟨req.user, by simp [optionalAuth, hb]⟩
    | some t =>
      by_cases he : t = ""
      · exact ⟨req.user, by simp [optionalAuth, hb, he]⟩
      · cases hv : verify t with
        | none => exact ⟨req.user, by simp [optionalAuth, hb, he, hv]⟩
        | some uid =>
          cases hg : getUserById s uid with
          | error e => exact ⟨req.user, by simp [optionalAuth, hb, he, hv, hg]⟩
          | ok d =>
            cases d with
            | none => exact ⟨req.user, by simp [optionalAuth, hb, he, hv, hg]⟩
            | some p =>
              exact ⟨some ⟨p.id, p.username, p.email, p.role, some p.created_at⟩,
                by simp [optionalAuth, hb, he, hv, hg]⟩
  · intro hu
    refine ⟨?_, ?_, ?_, ?_⟩
    · intro hb
      cases h : bearerToken req.authorization with
      | none => simp [optionalAuth, h, hu]
      | some t =>
        have he : t = "" := by
          by_contra hne
          simp [truthy, h, hne] at hb
        simp [optionalAuth, h, he, hu]
    · intro t ht hne hv
      simp [optionalAuth, ht, hne, hv, hu]
    · intro t uid ht hv hg
      by_cases he : t = ""
      · simp [optionalAuth, ht, he, hu]
      · simp [optionalAuth, ht, he, hv, hg, hu]
    · intro t uid ht hv hg
      by_cases he : t = ""
      · simp [optionalAuth, ht, he, hu]
      · simp [optionalAuth, ht, he, hv, hg, hu]

/-- C6 witness: concrete runs of `optionalAuth` — an invalid token, a stale
token (user gone), a store outage and a missing token all pass through with
no principal, and a valid token attaches the user. -/
theorem c6_optionalAuth_never_rejects_witness :
    (optionalAuth verify0 store0 reqForged).fst = MwResult.next none none
      ∧ (optionalAuth verify0 storeNoUser reqGood).fst = MwResult.next none none
      ∧ (optionalAuth verify0 storeUserErr reqGood).fst = MwResult.next none none
      ∧ (optionalAuth verify0 store0 ⟨none, some "rawkey", none, none⟩).fst
        = MwResult.next none none :=
  ⟨(c6_optionalAuth_never_rejects verify0 store0 reqForged).2.2.2 rfl |>.2.1
      "forged" (by decide) (by decide) (by decide),
   (c6_optionalAuth_never_rejects verify0 storeNoUser reqGood).2.2.2 rfl |>.2.2.1
      "goodtok" 7 (by decide) (by decide) rfl,
   (c6_optionalAuth_never_rejects verify0 storeUserErr reqGood).2.2.2 rfl |>.2.2.2
      "goodtok" 7 (by decide) (by decide) rfl,
   (c6_optionalAuth_never_rejects verify0 store0 ⟨none, some "rawkey", none, none⟩).2.2.2 rfl |>.1
      (by decide)⟩

/-! ### C7 — the Role Guard -/

/-- Request fixture: an attached viewer principal. -/
def viewerReq : Request := ⟨none, none, some ⟨3, "bob", "bob@example.com", "viewer", none⟩, none⟩

/-- Request fixture: an attached admin principal. -/
def adminReq : Request :=
  ⟨none, none, some ⟨7, "alice", "alice@example.com", "admin", some "2026-01-01"⟩, some "jwt"⟩

/-- C7: `requireRole` passes the request through exactly when the attached
principal's role is in the allowed list, rejects with 403
`Insufficient permissions` otherwise, and rejects with 401
`Authentication required` — not 403 — when no principal is attached. -/
theorem c7_requireRole_characterization (roles : List String) (req : Request) :
    (∀ u, req.user = some u →
      ((requireRole roles req = MwResult.next req.user req.authType) ↔ u.role ∈ roles)
      ∧ (u.role ∉ roles →
        requireRole roles req = MwResult.reject 403 "Insufficient permissions"))
    ∧ (req.user = none →
      requireRole roles req = MwResult.reject 401 "Authentication required") := by
  constructor
  · intro u hu
    constructor
    · by_cases hm : u.role ∈ roles
      · simp [requireRole, hu, hm]
      · simp [requireRole, hu, hm]
    · intro hm
      simp [requireRole, hu, hm]
  · intro hu
    simp [requireRole, hu]

/-- C7 witness: `viewer` against `["admin","contributor"]` is denied 403,
`admin` against `["admin"]` passes, and a request with no principal is
denied 401. -/
theorem c7_requireRole_characterization_witness :
    requireRole ["admin", "contributor"] viewerReq
        = MwResult.reject 403 "Insufficient permissions"
      ∧ requireRole ["admin"] adminReq = MwResult.next adminReq.user adminReq.authType
      ∧ requireRole ["admin"] ⟨none, none, none, none⟩
        = MwResult.reject 401 "Authentication required" :=
  ⟨((c7_requireRole_characterization ["admin", "contributor"] viewerReq).1
      ⟨3, "bob", "bob@example.com", "viewer", none⟩ rfl).2 (by decide),
   ((c7_requireRole_characterization ["admin"] adminReq).1
      ⟨7, "alice", "alice@example.com", "admin", some "2026-01-01"⟩ rfl).1.mpr (by decide),
   (c7_requireRole_characterization ["admin"] ⟨none, none, none, none⟩).2 rfl⟩

/-! ### C8 — DELETE /api/keys/:id enforces ownership as not-found -/

/-- `user7` as an attached principal (owner of `key9`). -/
def user7AsPrincipal : Principal := ⟨7, "alice", "alice@example.com", "admin", some "2026-01-01"⟩

/-- C8: the delete-key route never answers 403; with a healthy store, when no
stored key matches both the requested id and the requester's owner id the
route answers 404 `API key not found` and the store is unchanged, and when
some key matches both the route answers 200 and exactly the matching keys are
removed. -/
theorem c8_delete_ownership (s : Store) (principal : Principal) (id : Nat) :
    (deleteKeyRoute s principal id).fst.status ≠ 403
    ∧ (s.apiKeysDeleteErr = false →
      ((∀ k ∈ s.api_keys, ¬(k.id = id ∧ k.user_id = principal.id)) →
        (deleteKeyRoute s principal id).fst = ⟨404, "API key not found"⟩
        ∧ (deleteKeyRoute s principal id).snd = s)
      ∧ ((∃ k ∈ s.api_keys, k.id = id ∧ k.user_id = principal.id) →
        (deleteKeyRoute s principal id).fst = ⟨200, "API key revoked successfully"⟩
        ∧ (deleteKeyRoute s principal id).snd.api_keys
          = s.api_keys.filter (fun k => !(k.id == id && k.user_id == principal.id)))) := by
  have herr : ∀ h : s.apiKeysDeleteErr = true, deleteApiKey s id principal.id = .error () := by
    intro h
    unfold deleteApiKey
    rw [h]
    rfl
  have hok : ∀ h : s.apiKeysDeleteErr = false, deleteApiKey s id principal.id
      = .ok (s.api_keys.length
          - (s.api_keys.filter (fun k => !(k.id == id && k.user_id == principal.id))).length,
        { s with api_keys :=
            s.api_keys.filter (fun k => !(k.id == id && k.user_id == principal.id)) }) := by
    intro h
    unfold deleteApiKey
    rw [h]
    rfl
  constructor
  · cases hd : s.apiKeysDeleteErr with
    | true =>
      unfold deleteKeyRoute
      rw [herr hd]
      show (500 : Nat) ≠ 403
      decide
    | false =>
      unfold deleteKeyRoute
      rw [hok hd]
      cases hn : s.api_keys.length
          - (s.api_keys.filter (fun k => !(k.id == id && k.user_id == principal.id))).length with
      | zero =>
        show (404 : Nat) ≠ 403
        decide
      | succ n =>
        show (200 : Nat) ≠ 403
        decide
  · intro hd
    constructor
    · intro hnone
      have hkeep : s.api_keys.filter (fun k => !(k.id == id && k.user_id == principal.id))
          = s.api_keys := by
        apply List.filter_eq_self.mpr
        intro k hk
        have hnk := hnone k hk
        simp only [Bool.not_eq_true']
        by_contra hb
        simp only [Bool.not_eq_false, Bool.and_eq_true, beq_iff_eq] at hb
        exact hnk hb
      constructor
      · unfold deleteKeyRoute
        rw [hok hd, hkeep, Nat.sub_self]
      · unfold deleteKeyRoute
        rw [hok hd, hkeep, Nat.sub_self]
    · intro hex
      have hlt : (s.api_keys.filter (fun k => !(k.id == id && k.user_id == principal.id))).length
          < s.api_keys.length := by
        rcases Nat.eq_or_lt_of_le
            (List.length_filter_le (fun k => !(k.id == id && k.user_id == principal.id))
              s.api_keys) with heq | hlt
        · exfalso
          obtain ⟨k, hk, hkid, hkuid⟩ := hex
          have hall := List.filter_length_eq_length.mp heq k hk
          simp [hkid, hkuid] at hall
        · exact hlt
      obtain ⟨n, hn⟩ : ∃ n, s.api_keys.length
          - (s.api_keys.filter (fun k => !(k.id == id && k.user_id == principal.id))).length
          = n + 1 := ⟨_, (Nat.succ_pred_eq_of_pos (Nat.sub_pos_of_lt hlt)).symm⟩
      constructor
      · unfold deleteKeyRoute
        rw [hok hd, hn]
      · unfold deleteKeyRoute
        rw [hok hd, hn]

/-- C8 witness: on the concrete store, deleting key 9 with the wrong owner
(id 8) answers 404 and leaves the store unchanged; deleting a key that does
not exist (id 42) answers 404; the true owner (id 7) gets 200 and the key is
removed. -/
theorem c8_delete_ownership_witness :
    (deleteKeyRoute store0 ⟨8, "mallory", "m@example.com", "viewer", none⟩ 9).fst
        = RouteResponse.mk 404 "API key not found"
      ∧ (deleteKeyRoute store0 ⟨8, "mallory", "m@example.com", "viewer", none⟩ 9).snd = store0
      ∧ (deleteKeyRoute store0 user7AsPrincipal 42).fst
        = RouteResponse.mk 404 "API key not found"
      ∧ (deleteKeyRoute store0 user7AsPrincipal 9).fst
        = RouteResponse.mk 200 "API key revoked successfully" :=
  ⟨((c8_delete_ownership store0 ⟨8, "mallory", "m@example.com", "viewer", none⟩ 9).2 rfl).1
      (by decide) |>.1,
   ((c8_delete_ownership store0 ⟨8, "mallory", "m@example.com", "viewer", none⟩ 9).2 rfl).1
      (by decide) |>.2,
   ((c8_delete_ownership store0 user7AsPrincipal 42).2 rfl).1 (by decide) |>.1,
   ((c8_delete_ownership store0 user7AsPrincipal 9).2 rfl).2
      ⟨key9, by decide, by decide, by decide⟩ |>.1⟩

/-! ### C9 — the authType values -/

/-- Whenever the bearer block passes the request on, the authType it set is
`jwt`. -/
theorem tryBearer_next_authType (verify : String → Option Nat) (s : Store)
    (t : String) (u : Option Principal) (a : Option String)
    (h : (tryBearer verify s t).fst = MwResult.next u a) : a = some "jwt" := by
  cases hv : verify t with
  | none => simp [tryBearer, hv] at h
  | some uid =>
    cases hg : getUserById s uid with
    | error e => simp [tryBearer, hv, hg] at h
    | ok d =>
      cases d with
      | none => simp [tryBearer, hv, hg] at h
      | some p =>
        simp [tryBearer, hv, hg] at h
        exact h.2.symm

/-- Whenever the API-key block passes the request on, the authType it set is
`apikey`. -/
theorem tryApiKey_next_authType (sha256 : String → String) (s : Store)
    (req : Request) (u : Option Principal) (a : Option String)
    (h : (tryApiKey sha256 s req).fst = MwResult.next u a) : a = some "apikey" := by
  cases hk : req.x_api_key with
  | none => simp [tryApiKey, hk] at h
  | some k =>
    by_cases he : k = ""
    · simp [tryApiKey, hk, he] at h
    · cases hg : getApiKeyByHash s (sha256 k) with
      | error e => simp [tryApiKey, hk, he, hg] at h
      | ok d =>
        cases d with
        | none => simp [tryApiKey, hk, he, hg] at h
        | some rec =>
          cases ht : updateApiKeyLastUsed s rec.id with
          | error e => simp [tryApiKey, hk, he, hg, ht] at h
          | ok x => simp [tryApiKey, hk, he, hg, ht] at h; exact h.2.symm

/-- C9 counterexample: a bearer-token authentication attaches
`authType = "jwt"`, not the `"token"` the claim names. -/
theorem c9_counterexample_authType_is_jwt :
    (authenticateToken verify0 sha0 store0 reqGood).fst
        = MwResult.next (some user7AsPrincipal) (some "jwt")
      ∧ (some "jwt" : Option String) ≠ some "token"
      ∧ (authenticateToken verify0 sha0 store0 reqGood).fst
        ≠ MwResult.next (some user7AsPrincipal) (some "token") := by
  refine ⟨by decide, by decide, by decide⟩

/-- C9 (amended): for every request the gate itself authenticates (no
pre-attached principal), the authType attached alongside the principal is
`"jwt"` when resolved from a bearer token and `"apikey"` when resolved from
an API key — always exactly one of these two strings. -/
theorem c9_amended_authType_values (verify : String → Option Nat)
    (sha256 : String → String) (s : Store) (req : Request)
    (hu : req.user = none) :
    (∀ u a, (authenticateToken verify sha256 s req).fst = MwResult.next u a →
      a = some "jwt" ∨ a = some "apikey")
    ∧ (∀ t u a, bearerToken req.authorization = some t → t ≠ "" →
      (authenticateToken verify sha256 s req).fst = MwResult.next u a →
      a = some "jwt")
    ∧ (truthy (bearerToken req.authorization) = false →
      ∀ u a, (authenticateToken verify sha256 s req).fst = MwResult.next u a →
      a = some "apikey") := by
  refine ⟨?_, ?_, ?_⟩
  · intro u a h
    cases hb : bearerToken req.authorization with
    | none =>
      right
      rw [authenticateToken_eq_tryApiKey verify sha256 s req hu (by simp [truthy, hb])] at h
      exact tryApiKey_next_authType sha256 s req u a h
    | some t =>
      by_cases he : t = ""
      · right
        rw [authenticateToken_eq_tryApiKey verify sha256 s req hu
            (by simp [truthy, hb, he])] at h
        exact tryApiKey_next_authType sha256 s req u a h
      · left
        rw [authenticateToken_eq_tryBearer verify sha256 s req t hu hb he] at h
        exact tryBearer_next_authType verify s t u a h
  · intro t u a ht hne h
    rw [authenticateToken_eq_tryBearer verify sha256 s req t hu ht hne] at h
    exact tryBearer_next_authType verify s t u a h
  · intro hb u a h
    rw [authenticateToken_eq_tryApiKey verify sha256 s req hu hb] at h
    exact tryApiKey_next_authType sha256 s req u a h

/-- C9 witness: the amended statement on concrete bearer and API-key runs. -/
theorem c9_amended_authType_values_witness :
    ((some "jwt" : Option String) = some "jwt" ∨ (some "jwt" : Option String) = some "apikey")
      ∧ (some "jwt" : Option String) = some "jwt"
      ∧ (some "apikey" : Option String) = some "apikey" :=
  ⟨(c9_amended_authType_values verify0 sha0 store0 reqGood rfl).1
      (some user7AsPrincipal) (some "jwt") (by decide),
   (c9_amended_authType_values verify0 sha0 store0 reqGood rfl).2.1
      "goodtok" (some user7AsPrincipal) (some "jwt") (by decide) (by decide) (by decide),
   (c9_amended_authType_values verify0 sha0 store0 reqKey rfl).2.2 (by decide)
      (some ⟨7, "alice", "alice@example.com", "admin", none⟩) (some "apikey") (by decide)⟩

/-! ### C10 — how the token is extracted from the Authorization header -/

/-- A JS split on a character that does not occur returns the single whole
segment. -/
theorem splitChar_of_not_mem (sep : Char) (l : List Char) (h : sep ∉ l) :
    splitChar sep l = [l] := by
  induction l with
  | nil => rfl
  | cons c cs ih =>
    have hc : ¬(c = sep) := by
      rintro rfl
      exact h (List.mem_cons_self _ _)
    have hcs : sep ∉ cs := fun hm => h (List.mem_cons_of_mem _ hm)
    simp [splitChar, hc, ih hcs]

/-- A JS split at the first occurrence of the separator: the part before it
becomes the first segment and the rest is split on its own. -/
theorem splitChar_append_of_not_mem (sep : Char) (a b : List Char) (h : sep ∉ a) :
    splitChar sep (a ++ sep :: b) = a :: splitChar sep b := by
  induction a with
  | nil => simp [splitChar]
  | cons c cs ih =>
    have hc : ¬(c = sep) := by
      rintro rfl
      exact h (List.mem_cons_self _ _)
    have hcs : sep ∉ cs := fun hm => h (List.mem_cons_of_mem _ hm)
    simp [splitChar, hc, ih hcs]

/-- A header with no space yields no bearer-token candidate:
`h.split(' ')[1]` is undefined. -/
theorem bearerToken_of_no_space (h : String) (hh : ' ' ∉ h.data) :
    bearerToken (some h) = none := by
  simp [bearerToken, jsSplit, splitChar_of_not_mem ' ' h.data hh]

/-- For a header of the shape `scheme ++ " " ++ rest` (no space in either
part), the extracted candidate is `rest`, whatever the scheme word is. -/
theorem bearerToken_of_space (a b : String) (ha : ' ' ∉ a.data) (hb : ' ' ∉ b.data) :
    bearerToken (some (a ++ " " ++ b)) = some b := by
  have hdata : (a ++ " " ++ b).data = a.data ++ ' ' :: b.data := by
    simp [String.data_append]
  simp [bearerToken, jsSplit, hdata, splitChar_append_of_not_mem ' ' a.data b.data ha,
    splitChar_of_not_mem ' ' b.data hb]

/-- C10: the gate takes the second space-separated field of the Authorization
header as the token without checking the scheme word — for any header
`scheme ++ " " ++ rest` (neither part containing a space, `rest` nonempty)
the request is processed exactly as the bearer block on `rest`, e.g.
`Basic x` causes `x` to be verified — and for any header containing no space
no bearer candidate is extracted and the gate is exactly its API-key block
(falling through to the API-key check or to `Authentication required`). -/
theorem c10_scheme_not_checked (verify : String → Option Nat)
    (sha256 : String → String) (s : Store) :
    (∀ a b : String, ' ' ∉ a.data → ' ' ∉ b.data →
      bearerToken (some (a ++ " " ++ b)) = some b)
    ∧ (∀ (a b : String) (req : Request), req.user = none →
      req.authorization = some (a ++ " " ++ b) →
      ' ' ∉ a.data → ' ' ∉ b.data → b ≠ "" →
      authenticateToken verify sha256 s req = tryBearer verify s b)
    ∧ (∀ h : String, ' ' ∉ h.data → bearerToken (some h) = none)
    ∧ (∀ (h : String) (req : Request), req.user = none → req.authorization = some h →
      ' ' ∉ h.data →
      authenticateToken verify sha256 s req = tryApiKey sha256 s req) := by
  refine ⟨fun a b ha hb => bearerToken_of_space a b ha hb, ?_,
    fun h hh => bearerToken_of_no_space h hh, ?_⟩
  · intro a b req hu hauth ha hb hne
    apply authenticateToken_eq_tryBearer verify sha256 s req b hu _ hne
    rw [hauth]
    exact bearerToken_of_space a b ha hb
  · intro h req hu hauth hh
    apply authenticateToken_eq_tryApiKey verify sha256 s req hu
    rw [hauth, bearerToken_of_no_space h hh]
    rfl

/-- C10 witness: the header `Basic x` makes the gate verify `x` as a bearer
token (here failing, hence 403), and a bare token with no `Bearer` word in
front is not treated as a bearer credential — with no API key the gate
answers `Authentication required`. -/
theorem c10_scheme_not_checked_witness :
    bearerToken (some "Basic x") = some "x"
      ∧ authenticateToken verify0 sha0 store0 ⟨some "Basic x", none, none, none⟩
        = tryBearer verify0 store0 "x"
      ∧ bearerToken (some "abctoken") = none
      ∧ authenticateToken verify0 sha0 store0 ⟨some "abctoken", none, none, none⟩
        = tryApiKey sha0 store0 ⟨some "abctoken", none, none, none⟩ :=
  ⟨by
      have hx := (c10_scheme_not_checked verify0 sha0 store0).1 "Basic" "x"
        (by decide) (by decide)
      simpa using hx,
   by
      have hx := (c10_scheme_not_checked verify0 sha0 store0).2.1 "Basic" "x"
        ⟨some "Basic x", none, none, none⟩ rfl (by decide) (by decide) (by decide) (by decide)
      simpa using hx,
   (c10_scheme_not_checked verify0 sha0 store0).2.2.1 "abctoken" (by decide),
   (c10_scheme_not_checked verify0 sha0 store0).2.2.2 "abctoken"
      ⟨some "abctoken", none, none, none⟩ rfl rfl (by decide)⟩

end Atlas
